import Mathlib

/-!
Shallow embedding of the task orchestration and status-reconciliation engine
of the video platform (source files `app/video.py` and `app/video2.py`).

Modelling conventions:
* JSON values carried in webhook payloads are the inductive `J`; Python
  attribute errors from calling `.get` on a non-dict, and type errors from
  using an unhashable value as a dict key, are the `Except.error` branch.
* The in-memory `TASKS` registry is an association list from task id to
  `Task`; `task["status"] = s` becomes `setStatus`.
* External effects (HTTP download, MinIO upload, the two Redis `lpush`
  calls, ffmpeg, thumbnail fetch) are oracles: a `Env` / `ThumbEnv` record of
  booleans says which external step succeeds, and `json.loads` is an oracle
  function `String → Option J` (`none` when parsing raises).
* A handler outcome is a `CbOut`: the registry afterwards, the list of
  original uploads performed, the list of job descriptors published (in
  publish order), the number of temporary files left on disk after the
  handler finishes, and `resp = some 200` when the handler returned the dict
  with code 200, `none` when it raised an uncaught exception.
-/

namespace VideoApp

/-- JSON-like dynamic values as they appear in the webhook payload. -/
inductive J where
  | null : J
  | jstr : String → J
  | jnum : Int → J
  | jbool : Bool → J
  | jarr : List J → J
  | jobj : List (String × J) → J
deriving Repr

/-- Python truthiness of a JSON value (`if not x`). -/
def truthy : J → Bool
  | J.null => false
  | J.jstr s => !s.isEmpty
  | J.jnum n => n != 0
  | J.jbool b => b
  | J.jarr xs => !xs.isEmpty
  | J.jobj kvs => !kvs.isEmpty

/-- Python `x[0]` succeeds and is usable as a download target: only
nonempty lists and nonempty strings can be indexed by `0` without raising. -/
def indexable0 : J → Bool
  | J.jarr xs => !xs.isEmpty
  | J.jstr s => !s.isEmpty
  | _ => false

/-- Python `o.get(k, d)`: returns the value at key `k` (or the default `d`)
when `o` is a dict, raises `AttributeError` otherwise. -/
def pyGetD (o : J) (k : String) (d : J) : Except Unit J :=
  match o with
  | J.jobj kvs => Except.ok ((kvs.lookup k).getD d)
  | _ => Except.error ()

/-- Python `o.get(k)` with the implicit `None` default. -/
def pyGet (o : J) (k : String) : Except Unit J :=
  pyGetD o k J.null

/-- Python `str(x)` restricted to the scalar values that can reach an
f-string in the handlers (a task id is a string in every reachable path). -/
def pyStr : J → String
  | J.jstr s => s
  | J.jnum n => toString n
  | J.jbool true => "True"
  | J.jbool false => "False"
  | J.null => "None"
  | J.jarr _ => ""
  | J.jobj _ => ""

/-- One entry of the in-memory `TASKS` cache: `{"status": ..., "user_id": ...}`. -/
structure Task where
  status : String
  user_id : String
deriving DecidableEq, Repr

/-- The volatile `TASKS` registry, keyed by provider task id. -/
abbrev Registry := List (String × Task)

/-- Python `TASKS.get(task_id)` where `task_id` is an arbitrary payload value:
lists and dicts are unhashable and raise `TypeError`; any other non-string
value is hashable but never equals a string registry key. -/
def tasksGet (reg : Registry) : J → Except Unit (Option Task)
  | J.jarr _ => Except.error ()
  | J.jobj _ => Except.error ()
  | J.jstr s => Except.ok (List.lookup s reg)
  | _ => Except.ok none

/-- Python `task["status"] = s` on the dict fetched from `TASKS[tid]`. -/
def setStatus (reg : Registry) (tid s : String) : Registry :=
  List.map (fun p => if p.1 = tid then (p.1, { p.2 with status := s }) else p) reg

/-- One job descriptor pushed onto the `video_processing_jobs` Redis list. -/
structure Job where
  task_id : String
  user_id : String
  input_key : String
  output_key : String
  variant : String
deriving DecidableEq, Repr

/-- Success/failure oracle for the external effects inside a callback's
`try` block: the result download, the original upload, and the two Redis
`lpush` calls, in program order. -/
structure Env where
  downloadOk : Bool
  uploadOk : Bool
  push1Ok : Bool
  push2Ok : Bool
deriving DecidableEq, Repr

/-- The environment in which every external step succeeds. -/
def envAll : Env := ⟨true, true, true, true⟩

/-- Observable outcome of one callback handler invocation. -/
structure CbOut where
  registry : Registry
  uploaded : List (String × String)
  published : List Job
  tmpLeft : Nat
  resp : Option Nat
deriving DecidableEq, Repr

/-- The `video.py` callback's payload destructuring before the registry
lookup (lines 102-104): `data = payload.get("data", {})`,
`task_id = data.get("taskId")`,
`urls = data.get("info", \x7b\x7d).get("resultUrls", [])`.
The inbound `payload` is a dict (FastAPI validated `payload: dict`). -/
def cbPre (payload : List (String × J)) : Except Unit (J × J) :=
  match pyGet ((List.lookup "data" payload).getD (J.jobj [])) "taskId" with
  | Except.error e => Except.error e
  | Except.ok task_id =>
    match pyGetD ((List.lookup "data" payload).getD (J.jobj [])) "info" (J.jobj []) with
    | Except.error e => Except.error e
    | Except.ok info =>
      match pyGetD info "resultUrls" (J.jarr []) with
      | Except.error e => Except.error e
      | Except.ok urls => Except.ok (task_id, urls)

/-- Shared body of the `try`/`except`/`finally` block of both callbacks
(`video.py` lines 111-157, `video2.py` lines 128-176): download the first
result URL, upload the original, push the `v1` and `v2` job descriptors,
set status `QUEUED_FOR_AI`; on any exception set status `FAILED`; the
`finally` block always removes the temporary file, so `tmpLeft = 0` on
every path, and the handler always returns code 200. -/
def cbBody (reg : Registry) (env : Env) (tid : String) (t : Task) (urls : J) : CbOut :=
  let user := t.user_id
  if ¬ (indexable0 urls && env.downloadOk) then
    ⟨setStatus reg tid "FAILED", [], [], 0, some 200⟩
  else if ¬ env.uploadOk then
    ⟨setStatus reg tid "FAILED", [], [], 0, some 200⟩
  else
    let input_key := user ++ "/" ++ tid ++ ".mp4"
    let job1 : Job := ⟨tid, user, input_key, user ++ "/" ++ tid ++ "_processed.mp4", "v1"⟩
    let job2 : Job := ⟨tid, user, input_key, user ++ "/" ++ tid ++ "_processed_v2.mp4", "v2"⟩
    if ¬ env.push1Ok then
      ⟨setStatus reg tid "FAILED", [(user, tid)], [], 0, some 200⟩
    else if ¬ env.push2Ok then
      ⟨setStatus reg tid "FAILED", [(user, tid)], [job1], 0, some 200⟩
    else
      ⟨setStatus reg tid "QUEUED_FOR_AI", [(user, tid)], [job1, job2], 0, some 200⟩

/-- The `video.py` `/callback` handler (lines 100-157). A payload whose
dynamic field accesses raise (non-dict `data` or `info`, unhashable task id)
propagates the exception out of the handler: `resp = none`. Otherwise:
unknown task or falsy `resultUrls` returns code 200 with no side effect;
else the shared ingestion body runs. -/
def video_callback (reg : Registry) (env : Env) (payload : List (String × J)) : CbOut :=
  match cbPre payload with
  | Except.error _ => ⟨reg, [], [], 0, none⟩
  | Except.ok (task_id, urls) =>
    match tasksGet reg task_id with
    | Except.error _ => ⟨reg, [], [], 0, none⟩
    | Except.ok none => ⟨reg, [], [], 0, some 200⟩
    | Except.ok (some t) =>
      if ¬ truthy urls then ⟨reg, [], [], 0, some 200⟩
      else cbBody reg env (pyStr task_id) t urls

/-- The `resultJson` field read in `video2.py` line 114: at that point
`data` is known to be a dict (the earlier `data.get("taskId")` succeeded). -/
def rawOf (data : J) : J :=
  match data with
  | J.jobj kvs => (kvs.lookup "resultJson").getD J.null
  | _ => J.null

/-- The `video2.py` `/callback` handler (lines 105-176). After the registry
check, `resultJson` is extracted; a falsy value returns code 200. Then
`json.loads` runs inside a `try`: a non-string raw value or an invalid JSON
string raises (oracle `loads` returns `none`), and `parsed.get("resultUrls", [])`
on a non-dict parse result raises too — both caught, returning code 200
unchanged. Falsy `urls` also returns code 200; otherwise the shared
ingestion body runs. -/
def video2_callback (reg : Registry) (env : Env) (loads : String → Option J)
    (payload : List (String × J)) : CbOut :=
  let data := (List.lookup "data" payload).getD (J.jobj [])
  match pyGet data "taskId" with
  | Except.error _ => ⟨reg, [], [], 0, none⟩
  | Except.ok task_id =>
    match tasksGet reg task_id with
    | Except.error _ => ⟨reg, [], [], 0, none⟩
    | Except.ok none => ⟨reg, [], [], 0, some 200⟩
    | Except.ok (some t) =>
      let raw := rawOf data
      if ¬ truthy raw then ⟨reg, [], [], 0, some 200⟩
      else
        let parsedOpt : Option J :=
          match raw with
          | J.jstr s => loads s
          | _ => none
        match parsedOpt with
        | none => ⟨reg, [], [], 0, some 200⟩
        | some (J.jobj kvs) =>
          let urls := (kvs.lookup "resultUrls").getD (J.jarr [])
          if ¬ truthy urls then ⟨reg, [], [], 0, some 200⟩
          else cbBody reg env (pyStr task_id) t urls
        | some _ => ⟨reg, [], [], 0, some 200⟩

/-- Result of the `/status/{task_id}` endpoint: the returned task id,
status string, and the `done` sub-field present only in the PARTIAL case
(`(v1, v2)` flags). -/
structure StatusOut where
  task_id : String
  status : String
  done : Option (Bool × Bool)
deriving DecidableEq, Repr

/-- The `exists` helper of `get_status`: a stored name matches with or
without the `.mp4` extension (exact membership in the listing). -/
def status_exists (names : List String) (n : String) : Bool :=
  names.contains n || names.contains (n ++ ".mp4")

/-- The registry fallback of `get_status`: absent means PENDING, FAILED
stays FAILED, anything else is returned as-is. -/
def registryFallback (reg : Registry) (task_id : String) : StatusOut :=
  match List.lookup task_id reg with
  | none => ⟨task_id, "PENDING", none⟩
  | some t =>
    if t.status = "FAILED" then ⟨task_id, "FAILED", none⟩
    else ⟨task_id, t.status, none⟩

/-- The `/status/{task_id}` handler, identical in `video.py` (lines 198-237,
whose extra `if exists(task_id): pass` is a no-op) and `video2.py`
(lines 212-245). `listing` is the outcome of `list_user_videos(user_id)`:
an exception there falls through to the registry fallback. -/
def get_status (reg : Registry) (listing : Except Unit (List String))
    (task_id : String) : StatusOut :=
  match listing with
  | Except.error _ => registryFallback reg task_id
  | Except.ok names =>
    let has_v1 := status_exists names (task_id ++ "_processed")
    let has_v2 := status_exists names (task_id ++ "_processed_v2")
    if has_v1 && has_v2 then ⟨task_id, "DONE", none⟩
    else if has_v1 || has_v2 then ⟨task_id, "PARTIAL", some (has_v1, has_v2)⟩
    else registryFallback reg task_id

/-- Success/failure oracle for the external steps of `get_thumbnail`
(`video.py` lines 271-303): initial thumbnail fetch, video fetch and
download, the ffmpeg frame extraction (`check=True`), the thumbnail upload,
and the re-fetch of the freshly uploaded thumbnail. -/
structure ThumbEnv where
  thumbExists : Bool
  videoOk : Bool
  ffmpegOk : Bool
  thumbUploadOk : Bool
  thumbExistsAfter : Bool
deriving DecidableEq, Repr

/-- Observable outcome of `get_thumbnail`: temporary files left on disk,
whether a thumbnail was uploaded, and whether the handler returned a
stream (`ok = false` means an uncaught exception escaped). -/
structure ThumbOut where
  tmpLeft : Nat
  uploadedThumb : Bool
  ok : Bool
deriving DecidableEq, Repr

/-- The `/thumb/{task_id}.jpg` handler (`video.py` lines 271-303). When the
thumbnail is absent, two temporary files are created and are removed only
by the two `os.remove` calls at the end of the `except` block — an
exception in any derivation step skips them, leaving both files behind. -/
def get_thumbnail (env : ThumbEnv) : ThumbOut :=
  if env.thumbExists then ⟨0, false, true⟩
  else
    if ¬ env.videoOk then ⟨2, false, false⟩
    else if ¬ env.ffmpegOk then ⟨2, false, false⟩
    else if ¬ env.thumbUploadOk then ⟨2, false, false⟩
    else if ¬ env.thumbExistsAfter then ⟨2, true, false⟩
    else ⟨0, true, true⟩

/-! Concrete scenario inputs shared by several witnesses and counterexamples. -/

/-- A registry holding one task `t` of user `u` in state QUEUED. -/
def regQ : Registry := [("t", { status := "QUEUED", user_id := "u" })]

/-- A well-formed `video.py` callback payload for task `t` with one result URL. -/
def payloadGoodUrls : List (String × J) :=
  [("data", J.jobj [("taskId", J.jstr "t"),
                    ("info", J.jobj [("resultUrls", J.jarr [J.jstr "http://x/video.mp4"])])])]

/-- A `video.py` callback payload for task `t` whose result URL list is empty. -/
def payloadEmptyUrls : List (String × J) :=
  [("data", J.jobj [("taskId", J.jstr "t"),
                    ("info", J.jobj [("resultUrls", J.jarr [])])])]

/-- A `video2.py` callback payload for task `t` with no `resultJson` field. -/
def payload2NoResult : List (String × J) :=
  [("data", J.jobj [("taskId", J.jstr "t")])]

/-- A `video2.py` callback payload for task `t` whose `resultJson` is the
string `"oops"`, which is not valid JSON. -/
def payload2BadJson : List (String × J) :=
  [("data", J.jobj [("taskId", J.jstr "t"), ("resultJson", J.jstr "oops")])]

/-- A registry holding one task `t` of user `u` in state FAILED. -/
def regF : Registry := [("t", { status := "FAILED", user_id := "u" })]

/-- A registry holding one task `t` of user `u` in state QUEUED_FOR_AI. -/
def regA : Registry := [("t", { status := "QUEUED_FOR_AI", user_id := "u" })]

/-- A `video.py` callback payload referencing a task id never submitted. -/
def payloadUnknown : List (String × J) :=
  [("data", J.jobj [("taskId", J.jstr "zzz"),
                    ("info", J.jobj [("resultUrls", J.jarr [J.jstr "http://x/video.mp4"])])])]

/-- A `video2.py` callback payload for task `t` whose `resultJson` string
parses (under `loadsGood`) to an object with one result URL. -/
def payload2GoodJson : List (String × J) :=
  [("data", J.jobj [("taskId", J.jstr "t"), ("resultJson", J.jstr "good-json")])]

/-- A concrete `json.loads` oracle: the string `good-json` parses to an
object with one result URL, everything else raises. -/
def loadsGood : String → Option J :=
  fun s =>
    if s = "good-json" then some (J.jobj [("resultUrls", J.jarr [J.jstr "http://y/video.mp4"])])
    else none

/-! Helper lemmas shared by several claim proofs. -/

theorem lookup_cons_self {k : String} {v : Task} {tl : List (String × Task)} :
    List.lookup k ((k, v) :: tl) = some v := by
  simp [List.lookup]

theorem lookup_cons_ne {a k : String} {v : Task} {tl : List (String × Task)} (h : a ≠ k) :
    List.lookup a ((k, v) :: tl) = List.lookup a tl := by
  have hb : (a == k) = false := beq_eq_false_iff_ne.mpr h
  simp [List.lookup, hb]

theorem setStatus_lookup (reg : Registry) (tid s : String) :
    List.lookup tid (setStatus reg tid s) =
      (List.lookup tid reg).map (fun t => { t with status := s }) := by
  induction reg with
  | nil => rfl
  | cons hd tl ih =>
    obtain ⟨k, v⟩ := hd
    show List.lookup tid
        ((if k = tid then (k, { v with status := s }) else (k, v)) :: setStatus tl tid s)
      = (List.lookup tid ((k, v) :: tl)).map (fun t => { t with status := s })
    by_cases h : k = tid
    · subst h
      rw [if_pos rfl, lookup_cons_self, lookup_cons_self]
      rfl
    · rw [if_neg h, lookup_cons_ne (Ne.symm h), lookup_cons_ne (Ne.symm h), ih]

theorem cbPre_ok_taskId (payload : List (String × J)) (tid urls : J)
    (h : cbPre payload = Except.ok (tid, urls)) :
    pyGet ((List.lookup "data" payload).getD (J.jobj [])) "taskId" = Except.ok tid := by
  unfold cbPre at h
  cases hg : pyGet ((List.lookup "data" payload).getD (J.jobj [])) "taskId" with
  | error e => simp [hg] at h
  | ok v =>
    simp only [hg] at h
    cases hi : pyGetD ((List.lookup "data" payload).getD (J.jobj [])) "info" (J.jobj []) with
    | error e => simp [hi] at h
    | ok info =>
      simp only [hi] at h
      cases hu : pyGetD info "resultUrls" (J.jarr []) with
      | error e => simp [hu] at h
      | ok us =>
        simp only [hu, Except.ok.injEq, Prod.mk.injEq] at h
        rw [h.1]

theorem cbBody_resp (reg : Registry) (env : Env) (tid : String) (t : Task) (urls : J) :
    (cbBody reg env tid t urls).resp = some 200 := by
  unfold cbBody
  repeat' split
  all_goals rfl

theorem cbBody_tmpLeft (reg : Registry) (env : Env) (tid : String) (t : Task) (urls : J) :
    (cbBody reg env tid t urls).tmpLeft = 0 := by
  unfold cbBody
  repeat' split
  all_goals rfl

theorem cbBody_status (reg : Registry) (env : Env) (tid : String) (t : Task) (urls : J)
    (hreg : List.lookup tid reg = some t) :
    (List.lookup tid (cbBody reg env tid t urls).registry).map Task.status =
      some (if indexable0 urls && env.downloadOk && env.uploadOk && env.push1Ok && env.push2Ok
            then "QUEUED_FOR_AI" else "FAILED") := by
  obtain ⟨d, up, p1, p2⟩ := env
  unfold cbBody
  cases hI : indexable0 urls <;> cases d <;> cases up <;> cases p1 <;> cases p2 <;>
    simp [setStatus_lookup, hreg]

theorem video_callback_shape (reg : Registry) (env : Env) (payload : List (String × J)) :
    video_callback reg env payload = ⟨reg, [], [], 0, none⟩ ∨
    video_callback reg env payload = ⟨reg, [], [], 0, some 200⟩ ∨
    ∃ tid t urls, video_callback reg env payload = cbBody reg env tid t urls := by
  unfold video_callback
  repeat' split
  all_goals first
    | exact Or.inl rfl
    | exact Or.inr (Or.inl rfl)
    | exact Or.inr (Or.inr ⟨_, _, _, rfl⟩)

theorem video2_callback_shape (reg : Registry) (env : Env) (loads : String → Option J)
    (payload : List (String × J)) :
    video2_callback reg env loads payload = ⟨reg, [], [], 0, none⟩ ∨
    video2_callback reg env loads payload = ⟨reg, [], [], 0, some 200⟩ ∨
    ∃ tid t urls, video2_callback reg env loads payload = cbBody reg env tid t urls := by
  unfold video2_callback
  dsimp only
  repeat' split
  all_goals first
    | exact Or.inl rfl
    | exact Or.inr (Or.inl rfl)
    | exact Or.inr (Or.inr ⟨_, _, _, rfl⟩)

/-! The claims. -/

/-- Claim C1: for every task whose user namespace contains both processed
artifacts (keys ending in `_processed` and `_processed_v2`, with or without
the `.mp4` extension), the status query returns DONE, for every registry
state, including when the registry has no entry for the task. -/
theorem C1_both_processed_gives_DONE (reg : Registry) (names : List String) (tid : String)
    (h1 : status_exists names (tid ++ "_processed") = true)
    (h2 : status_exists names (tid ++ "_processed_v2") = true) :
    (get_status reg (Except.ok names) tid).status = "DONE" := by
  simp [get_status, h1, h2]

/-- Witness for C1 at a concrete input: both processed artifacts stored
(one with, one without the extension), empty registry. -/
theorem C1_both_processed_gives_DONE_witness :
    status_exists ["t_processed.mp4", "t_processed_v2"] ("t" ++ "_processed") = true ∧
    status_exists ["t_processed.mp4", "t_processed_v2"] ("t" ++ "_processed_v2") = true ∧
    (get_status [] (Except.ok ["t_processed.mp4", "t_processed_v2"]) "t").status = "DONE" :=
  ⟨by decide, by decide,
    C1_both_processed_gives_DONE [] ["t_processed.mp4", "t_processed_v2"] "t"
      (by decide) (by decide)⟩

/-- Claim C4: for every task where exactly one of the two processed
artifacts exists, the status query returns PARTIAL with per-variant flags
`done.v1`/`done.v2` true exactly for the variant whose artifact exists. -/
theorem C4_exactly_one_gives_PARTIAL (reg : Registry) (names : List String) (tid : String)
    (h : status_exists names (tid ++ "_processed") ≠ status_exists names (tid ++ "_processed_v2")) :
    get_status reg (Except.ok names) tid =
      ⟨tid, "PARTIAL", some (status_exists names (tid ++ "_processed"),
                             status_exists names (tid ++ "_processed_v2"))⟩ := by
  cases h1 : status_exists names (tid ++ "_processed") <;>
    cases h2 : status_exists names (tid ++ "_processed_v2") <;>
      simp_all [get_status]

/-- Witness for C4 at a concrete input: only the v1 artifact exists. -/
theorem C4_exactly_one_gives_PARTIAL_witness :
    status_exists ["t_processed.mp4"] ("t" ++ "_processed")
      ≠ status_exists ["t_processed.mp4"] ("t" ++ "_processed_v2") ∧
    get_status [] (Except.ok ["t_processed.mp4"]) "t" = ⟨"t", "PARTIAL", some (true, false)⟩ :=
  ⟨by decide, C4_exactly_one_gives_PARTIAL [] ["t_processed.mp4"] "t" (by decide)⟩

/-- Claim C7: for every task with no processed artifact in storage —
regardless of whether the original artifact exists — the status query falls
back to the registry: absent means PENDING, present with FAILED means
FAILED, otherwise the registry's current status. -/
theorem C7_fallback_to_registry (reg : Registry) (names : List String) (tid : String)
    (h1 : status_exists names (tid ++ "_processed") = false)
    (h2 : status_exists names (tid ++ "_processed_v2") = false) :
    (List.lookup tid reg = none → (get_status reg (Except.ok names) tid).status = "PENDING") ∧
    (∀ t : Task, List.lookup tid reg = some t → t.status = "FAILED" →
      (get_status reg (Except.ok names) tid).status = "FAILED") ∧
    (∀ t : Task, List.lookup tid reg = some t → t.status ≠ "FAILED" →
      (get_status reg (Except.ok names) tid).status = t.status) := by
  refine ⟨fun ha => ?_, fun t ht hf => ?_, fun t ht hf => ?_⟩
  · simp [get_status, h1, h2, registryFallback, ha]
  · simp [get_status, h1, h2, registryFallback, ht, hf]
  · simp [get_status, h1, h2, registryFallback, ht, hf]

/-- Witness for C7 at concrete inputs: the original artifact is present
but no processed artifact, with a registry entry in QUEUED_FOR_AI. -/
theorem C7_fallback_to_registry_witness :
    status_exists ["t.mp4"] ("t" ++ "_processed") = false ∧
    status_exists ["t.mp4"] ("t" ++ "_processed_v2") = false ∧
    (∀ t : Task,
      List.lookup "t" [("t", Task.mk "QUEUED_FOR_AI" "u")] = some t → t.status ≠ "FAILED" →
      (get_status [("t", Task.mk "QUEUED_FOR_AI" "u")] (Except.ok ["t.mp4"]) "t").status
        = t.status) :=
  ⟨by decide, by decide,
    (C7_fallback_to_registry [("t", Task.mk "QUEUED_FOR_AI" "u")] ["t.mp4"] "t"
      (by decide) (by decide)).2.2⟩

/-- Claim C2: for every callback on a registered task with a non-empty
result reference whose ingestion succeeds (`envAll`), exactly two job
descriptors are published: one with variant `v1` and output key
`{user_id}/{task_id}_processed.mp4`, one with variant `v2` and output key
`{user_id}/{task_id}_processed_v2.mp4`, both with input key
`{user_id}/{task_id}.mp4` — for the `video.py` endpoint and for the
`video2.py` endpoint. -/
theorem C2_two_jobs_published
    (reg : Registry) (payload payload2 : List (String × J)) (loads : String → Option J)
    (tid user raws : String) (t : Task) (u : J) (us : List J)
    (kvs2 kvs3 : List (String × J)) (u2 : J) (us2 : List J)
    (hpre : cbPre payload = Except.ok (J.jstr tid, J.jarr (u :: us)))
    (hreg : List.lookup tid reg = some t)
    (huser : t.user_id = user)
    (hd2 : List.lookup "data" payload2 = some (J.jobj kvs2))
    (ht2 : List.lookup "taskId" kvs2 = some (J.jstr tid))
    (hr2 : List.lookup "resultJson" kvs2 = some (J.jstr raws))
    (hraw : truthy (J.jstr raws) = true)
    (hloads : loads raws = some (J.jobj kvs3))
    (hurls : List.lookup "resultUrls" kvs3 = some (J.jarr (u2 :: us2))) :
    (video_callback reg envAll payload).published =
      [⟨tid, user, user ++ "/" ++ tid ++ ".mp4", user ++ "/" ++ tid ++ "_processed.mp4", "v1"⟩,
       ⟨tid, user, user ++ "/" ++ tid ++ ".mp4", user ++ "/" ++ tid ++ "_processed_v2.mp4", "v2"⟩] ∧
    (video2_callback reg envAll loads payload2).published =
      [⟨tid, user, user ++ "/" ++ tid ++ ".mp4", user ++ "/" ++ tid ++ "_processed.mp4", "v1"⟩,
       ⟨tid, user, user ++ "/" ++ tid ++ ".mp4", user ++ "/" ++ tid ++ "_processed_v2.mp4", "v2"⟩] := by
  constructor
  · simp [video_callback, hpre, tasksGet, hreg, truthy, cbBody, envAll, indexable0, pyStr, huser]
  · have hraw2 : raws.isEmpty = false := by simpa [truthy] using hraw
    simp [video2_callback, hd2, pyGet, pyGetD, ht2, tasksGet, hreg, rawOf, hr2, hraw2, hloads,
      hurls, cbBody, envAll, indexable0, truthy, pyStr, huser]

/-- Witness for C2 at concrete inputs: registered task `t` of user `u`,
one result URL per endpoint, all external steps succeeding. -/
theorem C2_two_jobs_published_witness :
    cbPre payloadGoodUrls = Except.ok (J.jstr "t", J.jarr [J.jstr "http://x/video.mp4"]) ∧
    List.lookup "t" regQ = some (Task.mk "QUEUED" "u") ∧
    loadsGood "good-json" = some (J.jobj [("resultUrls", J.jarr [J.jstr "http://y/video.mp4"])]) ∧
    ((video_callback regQ envAll payloadGoodUrls).published =
      [⟨"t", "u", "u/t.mp4", "u/t_processed.mp4", "v1"⟩,
       ⟨"t", "u", "u/t.mp4", "u/t_processed_v2.mp4", "v2"⟩] ∧
     (video2_callback regQ envAll loadsGood payload2GoodJson).published =
      [⟨"t", "u", "u/t.mp4", "u/t_processed.mp4", "v1"⟩,
       ⟨"t", "u", "u/t.mp4", "u/t_processed_v2.mp4", "v2"⟩]) :=
  ⟨rfl, rfl, rfl,
    C2_two_jobs_published regQ payloadGoodUrls payload2GoodJson loadsGood
      "t" "u" "good-json" (Task.mk "QUEUED" "u") (J.jstr "http://x/video.mp4") []
      [("taskId", J.jstr "t"), ("resultJson", J.jstr "good-json")]
      [("resultUrls", J.jarr [J.jstr "http://y/video.mp4"])]
      (J.jstr "http://y/video.mp4") []
      rfl rfl rfl rfl rfl rfl (by decide) rfl rfl⟩

/-- Claim C3 counterexample: the claim is not true of every payload whose
task identifier is absent from the registry. In `video.py` the result-URL
destructuring (line 104) runs before the registry check (line 106), so the
unknown-task payload whose `info` field is the string `x` raises an
`AttributeError` and no code-200 body is produced; in `video2.py` an
unknown task identifier that is an unhashable list makes `TASKS.get`
raise a `TypeError` with the same non-success outcome. -/
theorem C3_unknown_task_cex :
    (video_callback regQ envAll
      [("data", J.jobj [("taskId", J.jstr "zzz"), ("info", J.jstr "x")])]).resp = none ∧
    ¬ (video_callback regQ envAll
      [("data", J.jobj [("taskId", J.jstr "zzz"), ("info", J.jstr "x")])]).resp = some 200 ∧
    (video2_callback regQ envAll loadsGood
      [("data", J.jobj [("taskId", J.jarr [J.jstr "zzz"])])]).resp = none ∧
    ¬ (video2_callback regQ envAll loadsGood
      [("data", J.jobj [("taskId", J.jarr [J.jstr "zzz"])])]).resp = some 200 := by
  decide

/-- Claim C3 amended: for every callback payload whose dynamic field
accesses do not raise (its destructuring succeeds and the extracted task
identifier is usable as a registry key) and whose task identifier is
absent from the registry, both callback endpoints respond code 200 and
perform no storage upload and no queue publish (and leave the registry
unchanged); a payload whose destructuring raises produces no code-200
body at all. -/
theorem C3_unknown_task_no_side_effects
    (reg : Registry) (env : Env) (loads : String → Option J)
    (payload payload2 : List (String × J)) (tid urls tid2 : J)
    (hpre : cbPre payload = Except.ok (tid, urls))
    (habs : tasksGet reg tid = Except.ok none)
    (ht2 : pyGet ((List.lookup "data" payload2).getD (J.jobj [])) "taskId" = Except.ok tid2)
    (habs2 : tasksGet reg tid2 = Except.ok none) :
    video_callback reg env payload = ⟨reg, [], [], 0, some 200⟩ ∧
    video2_callback reg env loads payload2 = ⟨reg, [], [], 0, some 200⟩ := by
  constructor
  · simp [video_callback, hpre, habs]
  · simp [video2_callback, ht2, habs2]

/-- Witness for C3 at concrete inputs: callback for the never-submitted
task id `zzz` against a registry holding only task `t`. -/
theorem C3_unknown_task_no_side_effects_witness :
    cbPre payloadUnknown = Except.ok (J.jstr "zzz", J.jarr [J.jstr "http://x/video.mp4"]) ∧
    tasksGet regQ (J.jstr "zzz") = Except.ok none ∧
    (video_callback regQ envAll payloadUnknown = ⟨regQ, [], [], 0, some 200⟩ ∧
     video2_callback regQ envAll loadsGood payloadUnknown = ⟨regQ, [], [], 0, some 200⟩) :=
  ⟨rfl, rfl,
    C3_unknown_task_no_side_effects regQ envAll loadsGood payloadUnknown payloadUnknown
      (J.jstr "zzz") (J.jarr [J.jstr "http://x/video.mp4"]) (J.jstr "zzz")
      rfl rfl rfl rfl⟩

/-- Claim C5 counterexample: a callback with an empty result list on a
registered QUEUED task is acknowledged with code 200 but the registry
status is NOT set to FAILED — it stays QUEUED — and a subsequent status
query (no artifacts) returns QUEUED, not FAILED. The `video2.py` endpoint
with an absent result reference behaves the same. -/
theorem C5_empty_result_cex :
    (video_callback regQ envAll payloadEmptyUrls).resp = some 200 ∧
    (video_callback regQ envAll payloadEmptyUrls).registry = regQ ∧
    (List.lookup "t" (video_callback regQ envAll payloadEmptyUrls).registry).map Task.status
      ≠ some "FAILED" ∧
    (get_status (video_callback regQ envAll payloadEmptyUrls).registry (Except.ok []) "t").status
      = "QUEUED" ∧
    (get_status (video_callback regQ envAll payloadEmptyUrls).registry (Except.ok []) "t").status
      ≠ "FAILED" ∧
    (video2_callback regQ envAll loadsGood payload2NoResult).registry = regQ := by
  decide

/-- Claim C5 amended: for every callback on a registered task whose result
reference is empty (falsy result list for `video.py`, falsy `resultJson`
for `video2.py`), the endpoint acknowledges success with code 200 and
leaves the registry — in particular the task's status — unchanged, with no
storage upload and no queue publish. -/
theorem C5_empty_result_leaves_registry_unchanged
    (reg : Registry) (env : Env) (loads : String → Option J)
    (payload payload2 : List (String × J)) (tid tid2 urls : J) (t t2 : Task)
    (hpre : cbPre payload = Except.ok (tid, urls))
    (hreg : tasksGet reg tid = Except.ok (some t))
    (hurls : truthy urls = false)
    (ht2 : pyGet ((List.lookup "data" payload2).getD (J.jobj [])) "taskId" = Except.ok tid2)
    (hreg2 : tasksGet reg tid2 = Except.ok (some t2))
    (hraw2 : truthy (rawOf ((List.lookup "data" payload2).getD (J.jobj []))) = false) :
    video_callback reg env payload = ⟨reg, [], [], 0, some 200⟩ ∧
    video2_callback reg env loads payload2 = ⟨reg, [], [], 0, some 200⟩ := by
  constructor
  · simp [video_callback, hpre, hreg, hurls]
  · simp [video2_callback, ht2, hreg2, hraw2]

/-- Witness for the amended C5 at concrete inputs: registered QUEUED task,
empty `resultUrls` list for `video.py`, missing `resultJson` for `video2.py`. -/
theorem C5_empty_result_leaves_registry_unchanged_witness :
    cbPre payloadEmptyUrls = Except.ok (J.jstr "t", J.jarr []) ∧
    tasksGet regQ (J.jstr "t") = Except.ok (some (Task.mk "QUEUED" "u")) ∧
    truthy (J.jarr []) = false ∧
    (video_callback regQ envAll payloadEmptyUrls = ⟨regQ, [], [], 0, some 200⟩ ∧
     video2_callback regQ envAll loadsGood payload2NoResult = ⟨regQ, [], [], 0, some 200⟩) :=
  ⟨rfl, rfl, rfl,
    C5_empty_result_leaves_registry_unchanged regQ envAll loadsGood
      payloadEmptyUrls payload2NoResult (J.jstr "t") (J.jstr "t") (J.jarr [])
      (Task.mk "QUEUED" "u") (Task.mk "QUEUED" "u")
      rfl rfl rfl rfl rfl rfl⟩

/-- Claim C6 counterexample: a payload whose `data` field holds a
non-object value makes both callback handlers raise before any guarded
block (Python `AttributeError` on `.get`), so no success body with code 200
is produced — the framework turns the uncaught exception into a
non-success response. -/
theorem C6_malformed_payload_cex :
    (video_callback regQ envAll [("data", J.jstr "x")]).resp = none ∧
    ¬ (video_callback regQ envAll [("data", J.jstr "x")]).resp = some 200 ∧
    (video2_callback regQ envAll loadsGood [("data", J.jstr "x")]).resp = none ∧
    ¬ (video2_callback regQ envAll loadsGood [("data", J.jstr "x")]).resp = some 200 := by
  decide

/-- Claim C6 amended: for every inbound callback payload whose dynamic
field accesses do not raise (the `data` and `info` fields are objects or
absent) and whose task identifier is usable as a registry key, both
callback endpoints return code 200 on every path — redeliveries, unknown
tasks, empty results, and every internal download/upload/publish failure
included; a payload violating those conditions makes the handler raise
before the guarded block and no code-200 body is produced. -/
theorem C6_wellformed_payload_always_200
    (reg : Registry) (env : Env) (loads : String → Option J)
    (payload : List (String × J)) (tid urls : J) (o : Option Task)
    (hpre : cbPre payload = Except.ok (tid, urls))
    (hget : tasksGet reg tid = Except.ok o) :
    (video_callback reg env payload).resp = some 200 ∧
    (video2_callback reg env loads payload).resp = some 200 := by
  have ht := cbPre_ok_taskId payload tid urls hpre
  constructor
  · cases o with
    | none => simp [video_callback, hpre, hget]
    | some t =>
      by_cases hu : truthy urls
      · simp [video_callback, hpre, hget, hu, cbBody_resp]
      · simp [video_callback, hpre, hget, hu]
  · cases o with
    | none => simp [video2_callback, ht, hget]
    | some t =>
      by_cases hr : truthy (rawOf ((List.lookup "data" payload).getD (J.jobj []))) = true
      · cases hro : rawOf ((List.lookup "data" payload).getD (J.jobj [])) with
        | jstr s =>
          rw [hro] at hr
          cases hl : loads s with
          | none => simp [video2_callback, ht, hget, hr, hro, hl]
          | some p =>
            cases p with
            | jobj kvs =>
              by_cases hu : truthy ((List.lookup "resultUrls" kvs).getD (J.jarr [])) = true
              · simp [video2_callback, ht, hget, hr, hro, hl, hu, cbBody_resp]
              · simp [video2_callback, ht, hget, hr, hro, hl, hu]
            | null => simp [video2_callback, ht, hget, hr, hro, hl]
            | jstr s2 => simp [video2_callback, ht, hget, hr, hro, hl]
            | jnum n => simp [video2_callback, ht, hget, hr, hro, hl]
            | jbool b => simp [video2_callback, ht, hget, hr, hro, hl]
            | jarr xs => simp [video2_callback, ht, hget, hr, hro, hl]
        | null => rw [hro] at hr; simp [truthy] at hr
        | jnum n => simp [video2_callback, ht, hget, hr, hro]
        | jbool b => simp [video2_callback, ht, hget, hr, hro]
        | jarr xs => simp [video2_callback, ht, hget, hr, hro]
        | jobj kvs => simp [video2_callback, ht, hget, hr, hro]
      · simp [video2_callback, ht, hget, hr]

/-- Witness for the amended C6 at concrete inputs: a well-formed payload
for an unknown task, every external step failing, still answered 200
by both endpoints. -/
theorem C6_wellformed_payload_always_200_witness :
    cbPre payloadGoodUrls = Except.ok (J.jstr "t", J.jarr [J.jstr "http://x/video.mp4"]) ∧
    tasksGet [] (J.jstr "t") = Except.ok none ∧
    ((video_callback [] (Env.mk false false false false) payloadGoodUrls).resp = some 200 ∧
     (video2_callback [] (Env.mk false false false false) loadsGood payloadGoodUrls).resp
       = some 200) :=
  ⟨rfl, rfl,
    C6_wellformed_payload_always_200 [] (Env.mk false false false false) loadsGood
      payloadGoodUrls (J.jstr "t") (J.jarr [J.jstr "http://x/video.mp4"]) none
      rfl rfl⟩

/-- Claim C8 counterexample: neither QUEUED_FOR_AI nor FAILED is terminal.
A redelivered callback on a task whose registry status is FAILED, with a
non-empty result and all steps succeeding, sets the status to
QUEUED_FOR_AI; a redelivered callback on a QUEUED_FOR_AI task whose
download fails sets the status to FAILED. -/
theorem C8_terminal_states_cex :
    List.lookup "t" (video_callback regF envAll payloadGoodUrls).registry
      = some (Task.mk "QUEUED_FOR_AI" "u") ∧
    ("QUEUED_FOR_AI" : String) ≠ "FAILED" ∧
    List.lookup "t" (video_callback regA (Env.mk false true true true) payloadGoodUrls).registry
      = some (Task.mk "FAILED" "u") ∧
    ("FAILED" : String) ≠ "QUEUED_FOR_AI" := by
  decide

/-- Claim C8 amended: QUEUED_FOR_AI and FAILED are not terminal. A callback
on a registered task with a truthy result list is re-processed regardless
of the current registry status; afterwards the task's status is
QUEUED_FOR_AI exactly when every ingestion step succeeded and FAILED
otherwise, independent of the prior status — on both endpoints. -/
theorem C8_callback_overwrites_status
    (reg : Registry) (env : Env) (loads : String → Option J)
    (payload payload2 : List (String × J))
    (tid raws : String) (urls urls2 : J) (t : Task)
    (kvs2 kvs3 : List (String × J))
    (hpre : cbPre payload = Except.ok (J.jstr tid, urls))
    (hreg : List.lookup tid reg = some t)
    (hurls : truthy urls = true)
    (hd2 : List.lookup "data" payload2 = some (J.jobj kvs2))
    (ht2 : List.lookup "taskId" kvs2 = some (J.jstr tid))
    (hr2 : List.lookup "resultJson" kvs2 = some (J.jstr raws))
    (hraw : truthy (J.jstr raws) = true)
    (hloads : loads raws = some (J.jobj kvs3))
    (hurls2 : List.lookup "resultUrls" kvs3 = some urls2)
    (htr2 : truthy urls2 = true) :
    (List.lookup tid (video_callback reg env payload).registry).map Task.status =
      some (if indexable0 urls && env.downloadOk && env.uploadOk && env.push1Ok && env.push2Ok
            then "QUEUED_FOR_AI" else "FAILED") ∧
    (List.lookup tid (video2_callback reg env loads payload2).registry).map Task.status =
      some (if indexable0 urls2 && env.downloadOk && env.uploadOk && env.push1Ok && env.push2Ok
            then "QUEUED_FOR_AI" else "FAILED") := by
  constructor
  · have h1 : video_callback reg env payload = cbBody reg env tid t urls := by
      simp [video_callback, hpre, tasksGet, hreg, hurls, pyStr]
    rw [h1]
    exact cbBody_status reg env tid t urls hreg
  · have hraw2 : raws.isEmpty = false := by simpa [truthy] using hraw
    have h2 : video2_callback reg env loads payload2 = cbBody reg env tid t urls2 := by
      simp [video2_callback, hd2, pyGet, pyGetD, ht2, tasksGet, hreg, rawOf, hr2, hraw, hraw2,
        hloads, hurls2, htr2, pyStr]
    rw [h2]
    exact cbBody_status reg env tid t urls2 hreg

/-- Witness for the amended C8 at concrete inputs: task `t` currently
FAILED, redelivered callback with one result URL, all steps succeeding,
ends QUEUED_FOR_AI on both endpoints. -/
theorem C8_callback_overwrites_status_witness :
    cbPre payloadGoodUrls = Except.ok (J.jstr "t", J.jarr [J.jstr "http://x/video.mp4"]) ∧
    List.lookup "t" regF = some (Task.mk "FAILED" "u") ∧
    truthy (J.jarr [J.jstr "http://x/video.mp4"]) = true ∧
    ((List.lookup "t" (video_callback regF envAll payloadGoodUrls).registry).map Task.status =
      some (if indexable0 (J.jarr [J.jstr "http://x/video.mp4"]) && true && true && true && true
            then "QUEUED_FOR_AI" else "FAILED") ∧
     (List.lookup "t"
        (video2_callback regF envAll loadsGood payload2GoodJson).registry).map Task.status =
      some (if indexable0 (J.jarr [J.jstr "http://y/video.mp4"]) && true && true && true && true
            then "QUEUED_FOR_AI" else "FAILED")) :=
  ⟨rfl, rfl, rfl,
    C8_callback_overwrites_status regF envAll loadsGood payloadGoodUrls payload2GoodJson
      "t" "good-json" (J.jarr [J.jstr "http://x/video.mp4"])
      (J.jarr [J.jstr "http://y/video.mp4"]) (Task.mk "FAILED" "u")
      [("taskId", J.jstr "t"), ("resultJson", J.jstr "good-json")]
      [("resultUrls", J.jarr [J.jstr "http://y/video.mp4"])]
      rfl rfl rfl rfl rfl rfl (by decide) rfl rfl rfl⟩

/-- Claim C9 counterexample: in the thumbnail derivation path, a failing
ffmpeg invocation (raising `CalledProcessError` under `check=True`) skips
the two `os.remove` calls at the end of the block — both temporary files
are left behind, so not every exit path deletes the temporaries. -/
theorem C9_thumbnail_leak_cex :
    get_thumbnail (ThumbEnv.mk false true false true true) = ThumbOut.mk 2 false false ∧
    (2 : Nat) ≠ 0 := by
  decide

/-- Claim C9 amended: the callback ingestion paths delete their temporary
file on every exit path (the removal is in a `finally` block), but the
thumbnail derivation deletes its two temporary files only on the success
path: any exception during video fetch, frame extraction, thumbnail
upload, or the post-upload re-fetch leaves both files behind. -/
theorem C9_tmp_cleanup
    (reg : Registry) (env : Env) (loads : String → Option J)
    (payload payload2 : List (String × J)) (tenv : ThumbEnv) :
    (video_callback reg env payload).tmpLeft = 0 ∧
    (video2_callback reg env loads payload2).tmpLeft = 0 ∧
    (get_thumbnail tenv).tmpLeft =
      (if tenv.thumbExists
          || (tenv.videoOk && tenv.ffmpegOk && tenv.thumbUploadOk && tenv.thumbExistsAfter)
       then 0 else 2) := by
  refine ⟨?_, ?_, ?_⟩
  · rcases video_callback_shape reg env payload with h | h | ⟨tid, t, urls, h⟩ <;>
      simp [h, cbBody_tmpLeft]
  · rcases video2_callback_shape reg env loads payload2 with h | h | ⟨tid, t, urls, h⟩ <;>
      simp [h, cbBody_tmpLeft]
  · obtain ⟨a, b, c, d, e⟩ := tenv
    cases a <;> cases b <;> cases c <;> cases d <;> cases e <;> rfl

/-- Claim C10: for every callback to the `video2.py` endpoint on a
registered task whose `resultJson` field is present (truthy) but is not
valid JSON (`json.loads` raises), the endpoint responds code 200, leaves
the registry unchanged, and performs no storage upload and no queue
publish. -/
theorem C10_invalid_resultJson_no_effect
    (reg : Registry) (env : Env) (loads : String → Option J)
    (payload2 : List (String × J)) (tid2 : J) (t : Task) (s : String)
    (ht : pyGet ((List.lookup "data" payload2).getD (J.jobj [])) "taskId" = Except.ok tid2)
    (hreg : tasksGet reg tid2 = Except.ok (some t))
    (hraw : rawOf ((List.lookup "data" payload2).getD (J.jobj [])) = J.jstr s)
    (hs : truthy (J.jstr s) = true)
    (hl : loads s = none) :
    video2_callback reg env loads payload2 = ⟨reg, [], [], 0, some 200⟩ := by
  simp [video2_callback, ht, hreg, hraw, hs, hl]

/-- Witness for C10 at concrete inputs: registered task `t`, `resultJson`
holding the invalid JSON string `oops`. -/
theorem C10_invalid_resultJson_no_effect_witness :
    pyGet ((List.lookup "data" payload2BadJson).getD (J.jobj [])) "taskId"
      = Except.ok (J.jstr "t") ∧
    tasksGet regQ (J.jstr "t") = Except.ok (some (Task.mk "QUEUED" "u")) ∧
    loadsGood "oops" = none ∧
    video2_callback regQ envAll loadsGood payload2BadJson = ⟨regQ, [], [], 0, some 200⟩ :=
  ⟨rfl, rfl, rfl,
    C10_invalid_resultJson_no_effect regQ envAll loadsGood payload2BadJson
      (J.jstr "t") (Task.mk "QUEUED" "u") "oops"
      rfl rfl rfl (by decide) rfl⟩

end VideoApp
